import Mathlib

/-!
# terraform-provider-bamboo: the provider configuration routine

A shallow embedding of `bamboo/provider.go`.  The host framework
(terraform-plugin-framework) and the client library (go-bamboo) are
external to the repository; the few pieces of them that `Configure`
touches are embedded as small value types below, each with the line of
the source that uses it.
-/

/-! ## Framework values used by the provider -/

namespace basetypes

/-- Value of a string attribute as the framework hands it over
(`types.String` is the framework's name for `basetypes.StringValue`):
unknown, null, or a known Go string. -/
inductive StringValue where
  | unknown
  | null
  | known (value : String)
  deriving DecidableEq, Repr

/-- Method `IsUnknown` of `types.String`. -/
def StringValue.IsUnknown : StringValue → Bool
  | .unknown => true
  | _ => false

/-- Method `IsNull` of `types.String`. -/
def StringValue.IsNull : StringValue → Bool
  | .null => true
  | _ => false

/-- Method `ValueString` of `types.String`: the known string, and the empty
string for a null or unknown value. -/
def StringValue.ValueString : StringValue → String
  | .known v => v
  | _ => ""

end basetypes

namespace path

/-- Attribute path, as a list of attribute names from the root. -/
structure Path where
  steps : List String
  deriving DecidableEq, Repr

/-- Function `path.Root`: the path of a top-level attribute. -/
def Root (name : String) : Path := ⟨[name]⟩

end path

namespace diag

/-- Severity of a diagnostic. -/
inductive Severity where
  | SeverityInvalid
  | SeverityError
  | SeverityWarning
  deriving DecidableEq, Repr

/-- One diagnostic: severity, short title, long message and, for an
attribute diagnostic, the attribute path. -/
structure Diagnostic where
  severity : Severity
  summary : String
  detail : String
  path : Option path.Path
  deriving DecidableEq, Repr

/-- Ordered collection of diagnostics (`diag.Diagnostics`). -/
abbrev Diagnostics := List Diagnostic

/-- Constructor `NewAttributeErrorDiagnostic` of the framework. -/
def NewAttributeErrorDiagnostic (p : path.Path) (summary detail : String) : Diagnostic :=
  { severity := Severity.SeverityError, summary := summary, detail := detail, path := some p }

/-- Method `HasError`: some diagnostic has error severity. -/
def HasError (ds : Diagnostics) : Bool :=
  ds.any fun d => decide (d.severity = Severity.SeverityError)

/-- Method `Contains`: an equal diagnostic is already in the collection. -/
def Contains (ds : Diagnostics) (d : Diagnostic) : Bool :=
  ds.any fun e => decide (e = d)

/-- Method `Append`: adds the given diagnostics in order, skipping one that the
collection already contains. -/
def Append (ds : Diagnostics) : List Diagnostic → Diagnostics
  | [] => ds
  | d :: rest => Append (if Contains ds d then ds else ds ++ [d]) rest

/-- Method `AddAttributeError`: appends an error diagnostic for an attribute. -/
def AddAttributeError (ds : Diagnostics) (p : path.Path) (summary detail : String) :
    Diagnostics :=
  Append ds [NewAttributeErrorDiagnostic p summary detail]

end diag

namespace os

/-- Process environment: the value of each variable that is present. -/
abbrev Environ := String → Option String

/-- Function `os.Getenv`: the value of the variable, and the empty string when
the variable is absent. -/
def Getenv (env : Environ) (key : String) : String :=
  (env key).getD ""

end os

namespace gobamboo

/-- Client of the go-bamboo library, as far as `Configure` determines it: the
credentials handed to `NewSimpleClient` and the URL handed to `SetURL`
(`none` until `SetURL` is called). -/
structure Client where
  username : String
  password : String
  url : Option String
  deriving DecidableEq, Repr

/-- Call `bamboo.NewSimpleClient(nil, username, password)`. -/
def NewSimpleClient (username password : String) : Client :=
  { username := username, password := password, url := none }

/-- Call `client.SetURL(host)`; the provider ignores its error result. -/
def Client.SetURL (c : Client) (host : String) : Client :=
  { c with url := some host }

end gobamboo

namespace schema

/-- Attribute of a provider schema.  The provider only declares string
attributes; the other kinds are the other attribute types of the framework. -/
inductive Attribute where
  | StringAttribute (Optional Required Computed Sensitive : Bool)
  | BoolAttribute (Optional Required Computed Sensitive : Bool)
  | Int64Attribute (Optional Required Computed Sensitive : Bool)
  deriving DecidableEq, Repr

/-- Whether the attribute is a string attribute. -/
def Attribute.isString : Attribute → Bool
  | .StringAttribute .. => true
  | _ => false

/-- Field `Sensitive` of an attribute. -/
def Attribute.Sensitive : Attribute → Bool
  | .StringAttribute _ _ _ s => s
  | .BoolAttribute _ _ _ s => s
  | .Int64Attribute _ _ _ s => s

/-- Schema of a provider: its attributes by name, in the order the source
lists the keys of the `Attributes` map. -/
structure Schema where
  Attributes : List (String × Attribute)
  deriving DecidableEq, Repr

end schema

/-! ## The provider (`bamboo/provider.go`) -/

namespace bamboo

/-- Struct `bambooProviderModel` (lines 23-27). -/
structure bambooProviderModel where
  Host : basetypes.StringValue
  Username : basetypes.StringValue
  Password : basetypes.StringValue
  deriving DecidableEq, Repr

/-- The `tfsdk` struct tags of `bambooProviderModel` (lines 24-26), in field
order: the attribute names the model is decoded from. -/
def bambooProviderModel.tfsdkTags : List String :=
  ["host", "username", "password"]

/-- Outcome of `req.Config.Get(ctx, &config)` (line 64): the framework's
decoder is outside the repository, so its outcome is part of the request: the
decoded model and the diagnostics of the decoding. -/
structure Config where
  model : bambooProviderModel
  diags : diag.Diagnostics
  deriving DecidableEq, Repr

/-- Method `Get` of the request configuration: the diagnostics and the decoded
model. -/
def Config.Get (c : Config) : diag.Diagnostics × bambooProviderModel :=
  (c.diags, c.model)

/-- Struct `provider.ConfigureRequest`. -/
structure ConfigureRequest where
  Config : Config
  deriving DecidableEq, Repr

/-- Struct `provider.ConfigureResponse`: the diagnostics and the two handles
published to data sources and resources (`none` is Go's nil). -/
structure ConfigureResponse where
  Diagnostics : diag.Diagnostics
  DataSourceData : Option gobamboo.Client
  ResourceData : Option gobamboo.Client
  deriving DecidableEq, Repr

/-- Method `bambooProvider.Schema` (lines 43-58): the schema it stores in the
response. -/
def bambooProvider.Schema : schema.Schema :=
  { Attributes :=
      [ ("server", schema.Attribute.StringAttribute false false false false),
        ("username", schema.Attribute.StringAttribute false false false false),
        ("password", schema.Attribute.StringAttribute false false false true) ] }

/-- Method `bambooProvider.Metadata` (lines 38-40): the type name it stores in
the response. -/
def bambooProvider.Metadata : String := "bamboo"

/-- Constructor of a data source or of a resource, as a provider registers it:
its type name.  The provider registers none. -/
structure Registration where
  TypeName : String
  deriving DecidableEq, Repr

/-- Method `bambooProvider.DataSources` (lines 171-173): returns nil, the empty
slice. -/
def bambooProvider.DataSources : List Registration := []

/-- Method `bambooProvider.Resources` (lines 176-178): returns nil, the empty
slice. -/
def bambooProvider.Resources : List Registration := []

/-- Lines 107-121 of `Configure`: the three values start as the environment
variables and are overridden by every configuration field that is not null. -/
def bambooProvider.effectiveValues (env : os.Environ) (config : bambooProviderModel) :
    String × String × String :=
  let host := os.Getenv env "BAMBOO_HOST"
  let username := os.Getenv env "BAMBOO_USERNAME"
  let password := os.Getenv env "BAMBOO_PASSWORD"
  let host := if !config.Host.IsNull then config.Host.ValueString else host
  let username := if !config.Username.IsNull then config.Username.ValueString else username
  let password := if !config.Password.IsNull then config.Password.ValueString else password
  (host, username, password)

/-- Method `bambooProvider.Configure` (lines 61-168).  The environment is an
explicit input, the response is passed in and returned. -/
def bambooProvider.Configure (env : os.Environ) (req : ConfigureRequest)
    (resp : ConfigureResponse) : ConfigureResponse :=
  -- lines 63-68
  let (diags, config) := req.Config.Get
  let resp := { resp with Diagnostics := diag.Append resp.Diagnostics diags }
  if diag.HasError resp.Diagnostics then resp else
  -- lines 73-98
  let resp :=
    if config.Host.IsUnknown then
      { resp with
        Diagnostics := diag.AddAttributeError resp.Diagnostics
            (path.Root "host")
            "Unknown Bamboo API Host"
            ("The provider cannot create the Bamboo API client as there is an unknown configuration value for the Bamboo API host. " ++
              "Either target apply the source of the value first, set the value statically in the configuration, or use the BAMBOO_HOST environment variable.") }
    else resp
  let resp :=
    if config.Username.IsUnknown then
      { resp with
        Diagnostics := diag.AddAttributeError resp.Diagnostics
            (path.Root "username")
            "Unknown Bamboo API Username"
            ("The provider cannot create the Bamboo API client as there is an unknown configuration value for the Bamboo API username. " ++
              "Either target apply the source of the value first, set the value statically in the configuration, or use the BAMBOO_USERNAME environment variable.") }
    else resp
  let resp :=
    if config.Password.IsUnknown then
      { resp with
        Diagnostics := diag.AddAttributeError resp.Diagnostics
            (path.Root "password")
            "Unknown Bamboo API Password"
            ("The provider cannot create the Bamboo API client as there is an unknown configuration value for the Bamboo API password. " ++
              "Either target apply the source of the value first, set the value statically in the configuration, or use the BAMBOO_PASSWORD environment variable.") }
    else resp
  -- lines 100-102
  if diag.HasError resp.Diagnostics then resp else
  -- lines 107-121
  let (host, username, password) := bambooProvider.effectiveValues env config
  -- lines 126-154
  let resp :=
    if host = "" then
      { resp with
        Diagnostics := diag.AddAttributeError resp.Diagnostics
            (path.Root "host")
            "Missing Bamboo API Host"
            ("The provider cannot create the Bamboo API client as there is a missing or empty value for the Bamboo API host. " ++
              "Set the host value in the configuration or use the BAMBOO_HOST environment variable. " ++
              "If either is already set, ensure the value is not empty.") }
    else resp
  let resp :=
    if username = "" then
      { resp with
        Diagnostics := diag.AddAttributeError resp.Diagnostics
            (path.Root "username")
            "Missing Bamboo API Username"
            ("The provider cannot create the Bamboo API client as there is a missing or empty value for the Bamboo API username. " ++
              "Set the username value in the configuration or use the BAMBOO_USERNAME environment variable. " ++
              "If either is already set, ensure the value is not empty.") }
    else resp
  let resp :=
    if password = "" then
      { resp with
        Diagnostics := diag.AddAttributeError resp.Diagnostics
            (path.Root "password")
            "Missing Bamboo API Password"
            ("The provider cannot create the Bamboo API client as there is a missing or empty value for the Bamboo API password. " ++
              "Set the password value in the configuration or use the BAMBOO_PASSWORD environment variable. " ++
              "If either is already set, ensure the value is not empty.") }
    else resp
  -- lines 156-158
  if diag.HasError resp.Diagnostics then resp else
  -- lines 160-167
  let client := (gobamboo.NewSimpleClient username password).SetURL host
  { resp with DataSourceData := some client, ResourceData := some client }

end bamboo


/-! ## Vocabulary of the specification -/

namespace bamboo

/-- The three configuration fields. -/
inductive Field where
  | host
  | username
  | password
  deriving DecidableEq, Repr

/-- Attribute name of a field: the argument of `path.Root` in its diagnostics. -/
def Field.attr : Field → String
  | .host => "host"
  | .username => "username"
  | .password => "password"

/-- Environment variable read for a field (lines 107-109). -/
def Field.envVar : Field → String
  | .host => "BAMBOO_HOST"
  | .username => "BAMBOO_USERNAME"
  | .password => "BAMBOO_PASSWORD"

/-- Value of a field in the decoded model. -/
def Field.value (config : bambooProviderModel) : Field → basetypes.StringValue
  | .host => config.Host
  | .username => config.Username
  | .password => config.Password

/-- Effective value of a field, as lines 107-121 compute it. -/
def Field.effective (env : os.Environ) (config : bambooProviderModel) : Field → String
  | .host => (bambooProvider.effectiveValues env config).1
  | .username => (bambooProvider.effectiveValues env config).2.1
  | .password => (bambooProvider.effectiveValues env config).2.2

/-- The unknown-value diagnostic of a field: the one `Configure` raises at
lines 74-79 (host), 83-88 (username), 92-97 (password). -/
def unknownValueDiagnostic : Field → diag.Diagnostic
  | .host =>
    { severity := diag.Severity.SeverityError,
      summary := "Unknown Bamboo API Host",
      detail := "The provider cannot create the Bamboo API client as there is an unknown configuration value for the Bamboo API host. Either target apply the source of the value first, set the value statically in the configuration, or use the BAMBOO_HOST environment variable.",
      path := some (path.Root "host") }
  | .username =>
    { severity := diag.Severity.SeverityError,
      summary := "Unknown Bamboo API Username",
      detail := "The provider cannot create the Bamboo API client as there is an unknown configuration value for the Bamboo API username. Either target apply the source of the value first, set the value statically in the configuration, or use the BAMBOO_USERNAME environment variable.",
      path := some (path.Root "username") }
  | .password =>
    { severity := diag.Severity.SeverityError,
      summary := "Unknown Bamboo API Password",
      detail := "The provider cannot create the Bamboo API client as there is an unknown configuration value for the Bamboo API password. Either target apply the source of the value first, set the value statically in the configuration, or use the BAMBOO_PASSWORD environment variable.",
      path := some (path.Root "password") }

/-- The missing-value diagnostic of a field: the one `Configure` raises at
lines 127-133 (host), 137-143 (username), 147-153 (password). -/
def missingValueDiagnostic : Field → diag.Diagnostic
  | .host =>
    { severity := diag.Severity.SeverityError,
      summary := "Missing Bamboo API Host",
      detail := "The provider cannot create the Bamboo API client as there is a missing or empty value for the Bamboo API host. Set the host value in the configuration or use the BAMBOO_HOST environment variable. If either is already set, ensure the value is not empty.",
      path := some (path.Root "host") }
  | .username =>
    { severity := diag.Severity.SeverityError,
      summary := "Missing Bamboo API Username",
      detail := "The provider cannot create the Bamboo API client as there is a missing or empty value for the Bamboo API username. Set the username value in the configuration or use the BAMBOO_USERNAME environment variable. If either is already set, ensure the value is not empty.",
      path := some (path.Root "username") }
  | .password =>
    { severity := diag.Severity.SeverityError,
      summary := "Missing Bamboo API Password",
      detail := "The provider cannot create the Bamboo API client as there is a missing or empty value for the Bamboo API password. Set the password value in the configuration or use the BAMBOO_PASSWORD environment variable. If either is already set, ensure the value is not empty.",
      path := some (path.Root "password") }

/-- Effective value of a field in the words of the specification: the
configured value when the field is set, otherwise the value of its environment
variable (the empty string when the variable is absent). -/
def Field.resolved (env : os.Environ) (config : bambooProviderModel) (f : Field) : String :=
  match f.value config with
  | basetypes.StringValue.known v => v
  | _ => os.Getenv env f.envVar

/-- What a client holds for a field: the URL for host, the credentials for
username and password. -/
def Field.ofClient (c : gobamboo.Client) : Field → Option String
  | .host => c.url
  | .username => some c.username
  | .password => some c.password

/-- Name of a field as the titles of its diagnostics spell it (lines 76, 85,
94 and 129, 139, 149). -/
def Field.title : Field → String
  | .host => "Host"
  | .username => "Username"
  | .password => "Password"

/-- Whether the characters of `word` occur consecutively somewhere in `text`. -/
def occursIn (word : List Char) : List Char → Bool
  | [] => word.isEmpty
  | c :: cs => word.isPrefixOf (c :: cs) || occursIn word cs

/-- Whether a message mentions a word: the word is a substring of the message. -/
def mentions (text word : String) : Bool :=
  occursIn word.data text.data

/-- An error diagnostic without attribute path, such as a failed decoding of
the configuration reports. -/
def decodeError : diag.Diagnostic :=
  { severity := diag.Severity.SeverityError, summary := "Value Conversion Error",
    detail := "mismatch between the schema and the model", path := none }

/-- Request whose configuration decoded into `config` without diagnostics. -/
def decoded (config : bambooProviderModel) : ConfigureRequest :=
  { Config := { model := config, diags := [] } }

/-- Response as the framework passes it to `Configure`: no diagnostics, both
handles nil. -/
def freshResponse : ConfigureResponse :=
  { Diagnostics := [], DataSourceData := none, ResourceData := none }

/-- Number of fields of the model in the unknown state. -/
def unknownCount (config : bambooProviderModel) : Nat :=
  (if config.Host.IsUnknown then 1 else 0) + (if config.Username.IsUnknown then 1 else 0) +
    (if config.Password.IsUnknown then 1 else 0)

/-- Some field of the model is in the unknown state. -/
def anyUnknown (config : bambooProviderModel) : Bool :=
  config.Host.IsUnknown || config.Username.IsUnknown || config.Password.IsUnknown

/-- The empty process environment. -/
def emptyEnv : os.Environ := fun _ => none

/-- Environment given by a list of bindings; the first binding of a name wins. -/
def envOf (bindings : List (String × String)) : os.Environ :=
  fun key => (bindings.find? fun b => decide (b.1 = key)).map Prod.snd

end bamboo

namespace bamboo

/-- The diagnostics of phase 1: the unknown-value diagnostic of each unknown
field, in the order host, username, password. -/
def unknownDiagnostics (config : bambooProviderModel) : diag.Diagnostics :=
  ([Field.host, Field.username, Field.password].filter
    fun f => (f.value config).IsUnknown).map unknownValueDiagnostic

/-- The diagnostics of phase 2: the missing-value diagnostic of each field whose
effective value is empty, in the order host, username, password. -/
def missingDiagnostics (env : os.Environ) (config : bambooProviderModel) : diag.Diagnostics :=
  ([Field.host, Field.username, Field.password].filter
    fun f => decide (f.effective env config = "")).map missingValueDiagnostic

/-- The client built at lines 161-162 from the effective values. -/
def clientOf (env : os.Environ) (config : bambooProviderModel) : gobamboo.Client :=
  { username := Field.effective env config Field.username,
    password := Field.effective env config Field.password,
    url := some (Field.effective env config Field.host) }

end bamboo

namespace bamboo

/-- Lines 73-98 of `Configure` as a function of the response: the three
unknown-value checks. -/
def unknownPhase (config : bambooProviderModel) (resp : ConfigureResponse) :
    ConfigureResponse :=
  let resp :=
    if config.Host.IsUnknown then
      { resp with
        Diagnostics := diag.Append resp.Diagnostics [unknownValueDiagnostic Field.host] }
    else resp
  let resp :=
    if config.Username.IsUnknown then
      { resp with
        Diagnostics := diag.Append resp.Diagnostics [unknownValueDiagnostic Field.username] }
    else resp
  if config.Password.IsUnknown then
    { resp with
      Diagnostics := diag.Append resp.Diagnostics [unknownValueDiagnostic Field.password] }
  else resp

/-- Lines 126-154 of `Configure` as a function of the three effective values
and the response: the three missing-value checks. -/
def missingPhase (host username password : String) (resp : ConfigureResponse) :
    ConfigureResponse :=
  let resp :=
    if host = "" then
      { resp with
        Diagnostics := diag.Append resp.Diagnostics [missingValueDiagnostic Field.host] }
    else resp
  let resp :=
    if username = "" then
      { resp with
        Diagnostics := diag.Append resp.Diagnostics [missingValueDiagnostic Field.username] }
    else resp
  if password = "" then
    { resp with
      Diagnostics := diag.Append resp.Diagnostics [missingValueDiagnostic Field.password] }
  else resp

end bamboo

/-! ## Auxiliary lemmas -/

namespace bamboo

theorem Configure_unknown (env : os.Environ) (config : bambooProviderModel)
    (h : anyUnknown config = true) :
    bambooProvider.Configure env (decoded config) freshResponse =
      { Diagnostics := unknownDiagnostics config, DataSourceData := none,
        ResourceData := none } := by
  obtain ⟨h1, h2, h3⟩ := config
  cases h1 <;> cases h2 <;> cases h3 <;>
    first
    | rfl
    | simp [anyUnknown, basetypes.StringValue.IsUnknown] at h

/-- `Configure` is the sequence of its phases, each followed by the check for
an error diagnostic. -/
theorem Configure_phases (env : os.Environ) (req : ConfigureRequest)
    (resp : ConfigureResponse) :
    bambooProvider.Configure env req resp =
      (let resp0 := { resp with Diagnostics := diag.Append resp.Diagnostics req.Config.diags }
       if diag.HasError resp0.Diagnostics then resp0 else
       let resp1 := unknownPhase req.Config.model resp0
       if diag.HasError resp1.Diagnostics then resp1 else
       let resp2 := missingPhase (Field.effective env req.Config.model Field.host)
         (Field.effective env req.Config.model Field.username)
         (Field.effective env req.Config.model Field.password) resp1
       if diag.HasError resp2.Diagnostics then resp2 else
       { resp2 with
         DataSourceData := some (clientOf env req.Config.model),
         ResourceData := some (clientOf env req.Config.model) }) := by
  rfl

theorem unknownPhase_nil (config : bambooProviderModel) (a b : Option gobamboo.Client) :
    unknownPhase config { Diagnostics := [], DataSourceData := a, ResourceData := b } =
      { Diagnostics := unknownDiagnostics config, DataSourceData := a, ResourceData := b } := by
  obtain ⟨h1, h2, h3⟩ := config
  cases h1 <;> cases h2 <;> cases h3 <;> rfl

theorem missingDiagnostics_eq (env : os.Environ) (config : bambooProviderModel) :
    missingDiagnostics env config =
      (if Field.effective env config Field.host = "" then [missingValueDiagnostic Field.host]
        else []) ++
      ((if Field.effective env config Field.username = "" then
          [missingValueDiagnostic Field.username] else []) ++
       (if Field.effective env config Field.password = "" then
          [missingValueDiagnostic Field.password] else [])) := by
  unfold missingDiagnostics
  by_cases hh : Field.effective env config Field.host = "" <;>
  by_cases hu : Field.effective env config Field.username = "" <;>
  by_cases hp : Field.effective env config Field.password = "" <;>
  simp [List.filter, hh, hu, hp]

theorem missingPhase_nil (env : os.Environ) (config : bambooProviderModel)
    (a b : Option gobamboo.Client) :
    missingPhase (Field.effective env config Field.host)
        (Field.effective env config Field.username)
        (Field.effective env config Field.password)
        { Diagnostics := [], DataSourceData := a, ResourceData := b } =
      { Diagnostics := missingDiagnostics env config, DataSourceData := a,
        ResourceData := b } := by
  rw [missingDiagnostics_eq]
  unfold missingPhase
  by_cases hh : Field.effective env config Field.host = "" <;>
  by_cases hu : Field.effective env config Field.username = "" <;>
  by_cases hp : Field.effective env config Field.password = "" <;>
  (simp only [hh, hu, hp, if_true, if_false]; rfl)

theorem unknownDiagnostics_of_noUnknown (config : bambooProviderModel)
    (h : anyUnknown config = false) : unknownDiagnostics config = [] := by
  obtain ⟨h1, h2, h3⟩ := config
  cases h1 <;> cases h2 <;> cases h3 <;>
    first
    | rfl
    | simp [anyUnknown, basetypes.StringValue.IsUnknown] at h

theorem missingValueDiagnostic_severity (f : Field) :
    (missingValueDiagnostic f).severity = diag.Severity.SeverityError := by
  cases f <;> rfl

theorem unknownValueDiagnostic_severity (f : Field) :
    (unknownValueDiagnostic f).severity = diag.Severity.SeverityError := by
  cases f <;> rfl

theorem HasError_missingDiagnostics (env : os.Environ) (config : bambooProviderModel) :
    diag.HasError (missingDiagnostics env config) =
      !decide (missingDiagnostics env config = []) := by
  rw [missingDiagnostics_eq]
  by_cases hh : Field.effective env config Field.host = "" <;>
  by_cases hu : Field.effective env config Field.username = "" <;>
  by_cases hp : Field.effective env config Field.password = "" <;>
  simp [hh, hu, hp, diag.HasError, missingValueDiagnostic_severity]

theorem Configure_noUnknown (env : os.Environ) (config : bambooProviderModel)
    (h : anyUnknown config = false) :
    bambooProvider.Configure env (decoded config) freshResponse =
      if missingDiagnostics env config = [] then
        { Diagnostics := [], DataSourceData := some (clientOf env config),
          ResourceData := some (clientOf env config) }
      else
        { Diagnostics := missingDiagnostics env config, DataSourceData := none,
          ResourceData := none } := by
  rw [Configure_phases]
  have h0 : diag.Append freshResponse.Diagnostics (decoded config).Config.diags = [] := rfl
  have h1 : ({ freshResponse with Diagnostics := [] } : ConfigureResponse) =
      { Diagnostics := [], DataSourceData := none, ResourceData := none } := rfl
  have h2 : (decoded config).Config.model = config := rfl
  simp only [h0, h1, h2, unknownPhase_nil, missingPhase_nil,
    unknownDiagnostics_of_noUnknown config h, HasError_missingDiagnostics]
  by_cases hm : missingDiagnostics env config = []
  · simp [hm, diag.HasError]
  · simp [hm, diag.HasError]

theorem unknownDiagnostics_ne_nil (config : bambooProviderModel)
    (h : anyUnknown config = true) : unknownDiagnostics config ≠ [] := by
  obtain ⟨h1, h2, h3⟩ := config
  cases h1 <;> cases h2 <;> cases h3 <;>
    first
    | (simp [anyUnknown, basetypes.StringValue.IsUnknown] at h; done)
    | simp [unknownDiagnostics, List.filter, Field.value, basetypes.StringValue.IsUnknown]

theorem unknownDiagnostics_length (config : bambooProviderModel) :
    (unknownDiagnostics config).length = unknownCount config := by
  obtain ⟨h1, h2, h3⟩ := config
  cases h1 <;> cases h2 <;> cases h3 <;> rfl

theorem unknownValueDiagnostic_summary_ne (f g : Field) :
    (unknownValueDiagnostic f).summary ≠ (missingValueDiagnostic g).summary := by
  cases f <;> cases g <;> simp [unknownValueDiagnostic, missingValueDiagnostic]

theorem unknownValueDiagnostic_ne_missing (f g : Field) :
    unknownValueDiagnostic f ≠ missingValueDiagnostic g := by
  intro h
  exact unknownValueDiagnostic_summary_ne f g (congrArg diag.Diagnostic.summary h)

theorem unknownValueDiagnostic_injective : Function.Injective unknownValueDiagnostic := by
  intro f g h
  have hs := congrArg diag.Diagnostic.summary h
  cases f <;> cases g <;> first | rfl | (simp [unknownValueDiagnostic] at hs)

theorem missingValueDiagnostic_injective : Function.Injective missingValueDiagnostic := by
  intro f g h
  have hs := congrArg diag.Diagnostic.summary h
  cases f <;> cases g <;> first | rfl | (simp [missingValueDiagnostic] at hs)

theorem mem_unknownDiagnostics (config : bambooProviderModel) (d : diag.Diagnostic) :
    d ∈ unknownDiagnostics config ↔
      ∃ f : Field, (f.value config).IsUnknown = true ∧ d = unknownValueDiagnostic f := by
  unfold unknownDiagnostics
  simp only [List.mem_map, List.mem_filter]
  constructor
  · rintro ⟨f, ⟨_, hf⟩, rfl⟩
    exact ⟨f, hf, rfl⟩
  · rintro ⟨f, hf, rfl⟩
    exact ⟨f, ⟨by cases f <;> simp, hf⟩, rfl⟩

theorem mem_missingDiagnostics (env : os.Environ) (config : bambooProviderModel)
    (d : diag.Diagnostic) :
    d ∈ missingDiagnostics env config ↔
      ∃ f : Field, f.effective env config = "" ∧ d = missingValueDiagnostic f := by
  unfold missingDiagnostics
  simp only [List.mem_map, List.mem_filter, decide_eq_true_eq]
  constructor
  · rintro ⟨f, ⟨_, hf⟩, rfl⟩
    exact ⟨f, hf, rfl⟩
  · rintro ⟨f, hf, rfl⟩
    exact ⟨f, ⟨by cases f <;> simp, hf⟩, rfl⟩

theorem effective_of_noUnknown (env : os.Environ) (config : bambooProviderModel)
    (h : anyUnknown config = false) (f : Field) :
    f.effective env config = f.resolved env config := by
  obtain ⟨h1, h2, h3⟩ := config
  cases h1 <;> cases h2 <;> cases h3 <;>
    first
    | (simp [anyUnknown, basetypes.StringValue.IsUnknown] at h; done)
    | (cases f <;> rfl)

theorem effective_of_null (env : os.Environ) (config : bambooProviderModel) (f : Field)
    (h : (f.value config).IsNull = true) :
    f.effective env config = os.Getenv env f.envVar := by
  obtain ⟨h1, h2, h3⟩ := config
  cases f
  · cases h1 <;> first | rfl | (simp [Field.value, basetypes.StringValue.IsNull] at h)
  · cases h2 <;> first | rfl | (simp [Field.value, basetypes.StringValue.IsNull] at h)
  · cases h3 <;> first | rfl | (simp [Field.value, basetypes.StringValue.IsNull] at h)

theorem effective_of_known (env : os.Environ) (config : bambooProviderModel) (f : Field)
    (v : String) (h : f.value config = basetypes.StringValue.known v) :
    f.effective env config = v := by
  obtain ⟨h1, h2, h3⟩ := config
  cases f <;> simp only [Field.value] at h <;> subst h <;> rfl

theorem clientOf_ofClient (env : os.Environ) (config : bambooProviderModel) (f : Field) :
    f.ofClient (clientOf env config) = some (f.effective env config) := by
  cases f <;> rfl

end bamboo

namespace bamboo

theorem envVar_injective : Function.Injective Field.envVar := by
  intro f g h
  cases f <;> cases g <;> first | rfl | (simp [Field.envVar] at h)

theorem effective_of_not_null (env : os.Environ) (config : bambooProviderModel) (f : Field)
    (h : (f.value config).IsNull = false) :
    f.effective env config = (f.value config).ValueString := by
  obtain ⟨h1, h2, h3⟩ := config
  cases f
  · cases h1 <;> first | rfl | (simp [Field.value, basetypes.StringValue.IsNull] at h)
  · cases h2 <;> first | rfl | (simp [Field.value, basetypes.StringValue.IsNull] at h)
  · cases h3 <;> first | rfl | (simp [Field.value, basetypes.StringValue.IsNull] at h)

/-- `Configure` depends on the environment only through the three effective
values. -/
theorem Configure_congr_effective (env1 env2 : os.Environ) (req : ConfigureRequest)
    (resp : ConfigureResponse)
    (h : ∀ f : Field, f.effective env1 req.Config.model = f.effective env2 req.Config.model) :
    bambooProvider.Configure env1 req resp = bambooProvider.Configure env2 req resp := by
  rw [Configure_phases, Configure_phases]
  simp only [clientOf, h]

end bamboo

/-! ## Lemmas on the diagnostics collection and on arbitrary entry states -/

namespace diag

theorem Append_singleton (ds : Diagnostics) (d : Diagnostic) :
    Append ds [d] = if Contains ds d then ds else ds ++ [d] := rfl

theorem HasError_append (ds l : Diagnostics) :
    HasError (ds ++ l) = (HasError ds || HasError l) := by
  simp [HasError]

theorem Contains_append (ds l : Diagnostics) (d : Diagnostic) :
    Contains (ds ++ l) d = (Contains ds d || Contains l d) := by
  simp [Contains]

theorem Contains_iff_mem (ds : Diagnostics) (d : Diagnostic) :
    Contains ds d = true ↔ d ∈ ds := by
  simp [Contains]

theorem HasError_of_mem (ds : Diagnostics) (d : Diagnostic) (hd : d ∈ ds)
    (he : d.severity = Severity.SeverityError) : HasError ds = true := by
  simp only [HasError, List.any_eq_true, decide_eq_true_eq]
  exact ⟨d, hd, he⟩

theorem Contains_eq_false_of_noError (ds : Diagnostics) (d : Diagnostic)
    (h : HasError ds = false) (he : d.severity = Severity.SeverityError) :
    Contains ds d = false := by
  cases hc : Contains ds d
  · rfl
  · rw [HasError_of_mem ds d ((Contains_iff_mem ds d).1 hc) he] at h
    exact absurd h (by decide)

theorem mem_Append (l ds : Diagnostics) (d : Diagnostic) :
    d ∈ Append ds l ↔ d ∈ ds ∨ d ∈ l := by
  induction l generalizing ds with
  | nil => simp [Append]
  | cons e rest ih =>
    rw [Append, ih]
    by_cases hc : Contains ds e = true
    · have he : e ∈ ds := (Contains_iff_mem ds e).1 hc
      simp only [hc, if_true, List.mem_cons]
      constructor
      · rintro (h | h)
        · exact Or.inl h
        · exact Or.inr (Or.inr h)
      · rintro (h | h | h)
        · exact Or.inl h
        · exact Or.inl (h ▸ he)
        · exact Or.inr h
    · rw [if_neg hc]
      simp only [List.mem_append, List.mem_singleton, List.mem_cons]
      tauto

theorem HasError_Append (l ds : Diagnostics) :
    HasError (Append ds l) = (HasError ds || HasError l) := by
  have key : ∀ x : Diagnostics, HasError x = true ↔
      ∃ d, d ∈ x ∧ d.severity = Severity.SeverityError := by
    intro x
    simp [HasError]
  rw [Bool.eq_iff_iff, Bool.or_eq_true, key, key, key]
  constructor
  · rintro ⟨d, hd, he⟩
    rcases (mem_Append l ds d).1 hd with h | h
    · exact Or.inl ⟨d, h, he⟩
    · exact Or.inr ⟨d, h, he⟩
  · rintro (⟨d, hd, he⟩ | ⟨d, hd, he⟩)
    · exact ⟨d, (mem_Append l ds d).2 (Or.inl hd), he⟩
    · exact ⟨d, (mem_Append l ds d).2 (Or.inr hd), he⟩

end diag

namespace bamboo

theorem unknownValueDiagnostic_eq_iff (f g : Field) :
    unknownValueDiagnostic f = unknownValueDiagnostic g ↔ f = g :=
  unknownValueDiagnostic_injective.eq_iff

theorem missingValueDiagnostic_eq_iff (f g : Field) :
    missingValueDiagnostic f = missingValueDiagnostic g ↔ f = g :=
  missingValueDiagnostic_injective.eq_iff

/-- Phase 1 on a response whose diagnostics hold no error: the unknown-value
diagnostics are put after the ones already there. -/
theorem unknownPhase_noError (config : bambooProviderModel) (ds : diag.Diagnostics)
    (a b : Option gobamboo.Client) (h : diag.HasError ds = false) :
    unknownPhase config { Diagnostics := ds, DataSourceData := a, ResourceData := b } =
      { Diagnostics := ds ++ unknownDiagnostics config, DataSourceData := a,
        ResourceData := b } := by
  have hc : ∀ f : Field, unknownValueDiagnostic f ∉ ds := fun f hm =>
    absurd ((diag.Contains_iff_mem ds _).2 hm)
      (by rw [diag.Contains_eq_false_of_noError ds _ h (unknownValueDiagnostic_severity f)]
          decide)
  obtain ⟨h1, h2, h3⟩ := config
  cases h1 <;> cases h2 <;> cases h3 <;>
    simp [unknownPhase, unknownDiagnostics, Field.value, basetypes.StringValue.IsUnknown,
      diag.Append_singleton, diag.Contains_append, hc, diag.Contains,
      unknownValueDiagnostic_eq_iff]

/-- Phase 2 on a response whose diagnostics hold no error: the missing-value
diagnostics are put after the ones already there. -/
theorem missingPhase_noError (env : os.Environ) (config : bambooProviderModel)
    (ds : diag.Diagnostics) (a b : Option gobamboo.Client) (h : diag.HasError ds = false) :
    missingPhase (Field.effective env config Field.host)
        (Field.effective env config Field.username)
        (Field.effective env config Field.password)
        { Diagnostics := ds, DataSourceData := a, ResourceData := b } =
      { Diagnostics := ds ++ missingDiagnostics env config, DataSourceData := a,
        ResourceData := b } := by
  have hc : ∀ f : Field, missingValueDiagnostic f ∉ ds := fun f hm =>
    absurd ((diag.Contains_iff_mem ds _).2 hm)
      (by rw [diag.Contains_eq_false_of_noError ds _ h (missingValueDiagnostic_severity f)]
          decide)
  rw [missingDiagnostics_eq]
  by_cases hh : Field.effective env config Field.host = "" <;>
  by_cases hu : Field.effective env config Field.username = "" <;>
  by_cases hp : Field.effective env config Field.password = "" <;>
  simp [missingPhase, hh, hu, hp, diag.Append_singleton, diag.Contains_append, hc,
    diag.Contains, missingValueDiagnostic_eq_iff]

theorem HasError_unknownDiagnostics (config : bambooProviderModel) :
    diag.HasError (unknownDiagnostics config) = anyUnknown config := by
  obtain ⟨h1, h2, h3⟩ := config
  cases h1 <;> cases h2 <;> cases h3 <;>
    simp [unknownDiagnostics, Field.value, basetypes.StringValue.IsUnknown, anyUnknown,
      diag.HasError, unknownValueDiagnostic_severity]

/-- `Configure` on an arbitrary request and entry response, by cases: an error
on entry or from the decoding, an unknown field, an empty effective value, or
success. -/
theorem Configure_cases (env : os.Environ) (req : ConfigureRequest)
    (resp : ConfigureResponse) :
    bambooProvider.Configure env req resp =
      if diag.HasError (diag.Append resp.Diagnostics req.Config.diags) = true then
        { resp with Diagnostics := diag.Append resp.Diagnostics req.Config.diags }
      else if anyUnknown req.Config.model = true then
        { resp with
          Diagnostics := diag.Append resp.Diagnostics req.Config.diags ++
            unknownDiagnostics req.Config.model }
      else if missingDiagnostics env req.Config.model = [] then
        { Diagnostics := diag.Append resp.Diagnostics req.Config.diags,
          DataSourceData := some (clientOf env req.Config.model),
          ResourceData := some (clientOf env req.Config.model) }
      else
        { resp with
          Diagnostics := diag.Append resp.Diagnostics req.Config.diags ++
            missingDiagnostics env req.Config.model } := by
  rw [Configure_phases]
  obtain ⟨ds, a, b⟩ := resp
  simp only []
  by_cases h0 : diag.HasError (diag.Append ds req.Config.diags) = true
  · simp only [h0, if_true]
  · have h0f : diag.HasError (diag.Append ds req.Config.diags) = false := by
      simpa using h0
    simp only [h0, if_false, unknownPhase_noError _ _ _ _ h0f, diag.HasError_append,
      h0f, Bool.false_or, HasError_unknownDiagnostics]
    by_cases hu : anyUnknown req.Config.model = true
    · simp only [hu, if_true]
    · have huf : anyUnknown req.Config.model = false := by simpa using hu
      simp only [hu, if_false, unknownDiagnostics_of_noUnknown _ huf, List.append_nil,
        missingPhase_noError env _ _ _ _ h0f, diag.HasError_append, h0f, Bool.false_or,
        HasError_missingDiagnostics]
      by_cases hm : missingDiagnostics env req.Config.model = []
      · simp [hm]
      · simp [hm]

end bamboo

namespace bamboo

theorem unknownValueDiagnostic_path (f : Field) :
    (unknownValueDiagnostic f).path = some (path.Root f.attr) := by
  cases f <;> rfl

theorem missingValueDiagnostic_path (f : Field) :
    (missingValueDiagnostic f).path = some (path.Root f.attr) := by
  cases f <;> rfl

theorem unknownValueDiagnostic_summary (f : Field) :
    (unknownValueDiagnostic f).summary = "Unknown Bamboo API " ++ f.title := by
  cases f <;> decide

theorem missingValueDiagnostic_summary (f : Field) :
    (missingValueDiagnostic f).summary = "Missing Bamboo API " ++ f.title := by
  cases f <;> decide

set_option maxRecDepth 100000 in
theorem unknownValueDiagnostic_mentions (f g : Field) :
    mentions (unknownValueDiagnostic f).detail g.envVar = decide (g = f) := by
  cases f <;> cases g <;> decide

set_option maxRecDepth 100000 in
theorem missingValueDiagnostic_mentions (f g : Field) :
    mentions (missingValueDiagnostic f).detail g.envVar = decide (g = f) := by
  cases f <;> cases g <;> decide

theorem effective_congr_Getenv (env1 env2 : os.Environ) (config : bambooProviderModel)
    (h : ∀ f : Field, os.Getenv env1 f.envVar = os.Getenv env2 f.envVar) (f : Field) :
    f.effective env1 config = f.effective env2 config := by
  cases hn : (f.value config).IsNull
  · rw [effective_of_not_null env1 config f hn, effective_of_not_null env2 config f hn]
  · rw [effective_of_null env1 config f hn, effective_of_null env2 config f hn, h f]

theorem fieldPaths_eq :
    [Field.host, Field.username, Field.password].map (fun f => some (path.Root f.attr)) =
      [some (path.Root "host"), some (path.Root "username"), some (path.Root "password")] :=
  rfl

theorem unknownDiagnostics_paths (config : bambooProviderModel) :
    List.Sublist ((unknownDiagnostics config).map fun d => d.path)
      [some (path.Root "host"), some (path.Root "username"), some (path.Root "password")] := by
  rw [← fieldPaths_eq]
  unfold unknownDiagnostics
  rw [List.map_map]
  have hf : ((fun d : diag.Diagnostic => d.path) ∘ unknownValueDiagnostic) =
      fun f => some (path.Root f.attr) := by
    funext f
    exact unknownValueDiagnostic_path f
  rw [hf]
  exact (List.filter_sublist _).map _

theorem missingDiagnostics_paths (env : os.Environ) (config : bambooProviderModel) :
    List.Sublist ((missingDiagnostics env config).map fun d => d.path)
      [some (path.Root "host"), some (path.Root "username"), some (path.Root "password")] := by
  rw [← fieldPaths_eq]
  unfold missingDiagnostics
  rw [List.map_map]
  have hf : ((fun d : diag.Diagnostic => d.path) ∘ missingValueDiagnostic) =
      fun f => some (path.Root f.attr) := by
    funext f
    exact missingValueDiagnostic_path f
  rw [hf]
  exact (List.filter_sublist _).map _

theorem fieldPaths_nodup :
    [some (path.Root "host"), some (path.Root "username"),
      some (path.Root "password")].Nodup := by
  decide

end bamboo

/-! ## The contract of `Configure`

The statements C1 to C9 and C13 run `Configure` on a request whose
configuration decoded without diagnostics (`decoded config`) and on the
response the framework passes in (`freshResponse`).  C11 and C14 to C17 hold
for every request and every entry response. -/

namespace bamboo

/-- C1: for every decoded configuration (each field unknown, null or set) and
every environment, `Configure` ends in exactly one of two ways: both handles are
set and there is no diagnostic, or both handles are nil and the list of
diagnostics is non-empty.  Never a handle together with diagnostics, never
neither. -/
theorem C1_handle_or_diagnostics (env : os.Environ) (config : bambooProviderModel) :
    ((bambooProvider.Configure env (decoded config) freshResponse).DataSourceData.isSome = true ∧
      (bambooProvider.Configure env (decoded config) freshResponse).ResourceData.isSome = true ∧
      (bambooProvider.Configure env (decoded config) freshResponse).Diagnostics = []) ∨
    ((bambooProvider.Configure env (decoded config) freshResponse).DataSourceData = none ∧
      (bambooProvider.Configure env (decoded config) freshResponse).ResourceData = none ∧
      (bambooProvider.Configure env (decoded config) freshResponse).Diagnostics ≠ []) := by
  cases h : anyUnknown config
  · rw [Configure_noUnknown env config h]
    by_cases hm : missingDiagnostics env config = []
    · left
      simp [hm]
    · right
      simp [hm]
  · rw [Configure_unknown env config h]
    right
    exact ⟨rfl, rfl, unknownDiagnostics_ne_nil config h⟩

/-- C2: for every decoded configuration and environment, `Configure` publishes a
client handle if and only if no field is unknown and the effective value of each
of the three fields (the set value, otherwise the environment value) is a
non-empty string. -/
theorem C2_handle_iff_resolved (env : os.Environ) (config : bambooProviderModel) :
    (∃ c : gobamboo.Client,
        (bambooProvider.Configure env (decoded config) freshResponse).DataSourceData = some c ∧
        (bambooProvider.Configure env (decoded config) freshResponse).ResourceData = some c) ↔
      (config.Host.IsUnknown = false ∧ config.Username.IsUnknown = false ∧
        config.Password.IsUnknown = false ∧
        Field.resolved env config Field.host ≠ "" ∧
        Field.resolved env config Field.username ≠ "" ∧
        Field.resolved env config Field.password ≠ "") := by
  cases h : anyUnknown config
  · have hu : config.Host.IsUnknown = false ∧ config.Username.IsUnknown = false ∧
        config.Password.IsUnknown = false := by
      simpa [anyUnknown, and_assoc] using h
    rw [Configure_noUnknown env config h, missingDiagnostics_eq,
      effective_of_noUnknown env config h Field.host,
      effective_of_noUnknown env config h Field.username,
      effective_of_noUnknown env config h Field.password]
    by_cases hh : Field.resolved env config Field.host = "" <;>
    by_cases hn : Field.resolved env config Field.username = "" <;>
    by_cases hp : Field.resolved env config Field.password = "" <;>
    simp [hh, hn, hp, hu]
  · rw [Configure_unknown env config h]
    have hu : ¬ (config.Host.IsUnknown = false ∧ config.Username.IsUnknown = false ∧
        config.Password.IsUnknown = false) := by
      intro hc
      simp [anyUnknown, hc.1, hc.2.1, hc.2.2] at h
    constructor
    · rintro ⟨c, hc, _⟩
      simp at hc
    · rintro ⟨a, b, c, _⟩
      exact absurd ⟨a, b, c⟩ hu

/-- C3: for every decoded configuration with at least one unknown field,
whatever the environment, the diagnostics of `Configure` are non-empty and are
the unknown-value diagnostics of the unknown fields, one for each (the three
being pairwise different), their number is the number of unknown fields, and no
handle is published. -/
theorem C3_unknown_fields_reported (env : os.Environ) (config : bambooProviderModel)
    (h : anyUnknown config = true) :
    (bambooProvider.Configure env (decoded config) freshResponse).Diagnostics ≠ [] ∧
    (bambooProvider.Configure env (decoded config) freshResponse).Diagnostics =
      ([Field.host, Field.username, Field.password].filter
        fun f => (f.value config).IsUnknown).map unknownValueDiagnostic ∧
    Function.Injective unknownValueDiagnostic ∧
    (bambooProvider.Configure env (decoded config) freshResponse).Diagnostics.length =
      unknownCount config ∧
    (bambooProvider.Configure env (decoded config) freshResponse).DataSourceData = none ∧
    (bambooProvider.Configure env (decoded config) freshResponse).ResourceData = none := by
  rw [Configure_unknown env config h]
  exact ⟨unknownDiagnostics_ne_nil config h, rfl, unknownValueDiagnostic_injective,
    unknownDiagnostics_length config, rfl, rfl⟩

/-- Witness of C3: host unknown, username null, password set, empty environment. -/
theorem C3_unknown_fields_reported_witness :
    anyUnknown ⟨basetypes.StringValue.unknown, basetypes.StringValue.null,
        basetypes.StringValue.known "secret"⟩ = true ∧
    (bambooProvider.Configure emptyEnv (decoded ⟨basetypes.StringValue.unknown,
        basetypes.StringValue.null, basetypes.StringValue.known "secret"⟩)
        freshResponse).Diagnostics.length = 1 :=
  ⟨rfl, (C3_unknown_fields_reported emptyEnv ⟨basetypes.StringValue.unknown,
    basetypes.StringValue.null, basetypes.StringValue.known "secret"⟩ rfl).2.2.2.1⟩

/-- C4: for every configuration whose three fields are set to non-empty strings
and every environment, `Configure` returns no diagnostic and publishes a client
whose URL, username and password are exactly the three configured values. -/
theorem C4_all_set (env : os.Environ) (host username password : String)
    (hh : host ≠ "") (hu : username ≠ "") (hp : password ≠ "") :
    bambooProvider.Configure env
        (decoded ⟨basetypes.StringValue.known host, basetypes.StringValue.known username,
          basetypes.StringValue.known password⟩) freshResponse =
      { Diagnostics := [],
        DataSourceData := some { username := username, password := password, url := some host },
        ResourceData := some { username := username, password := password, url := some host } } := by
  have hk : anyUnknown ⟨basetypes.StringValue.known host,
      basetypes.StringValue.known username, basetypes.StringValue.known password⟩ = false := rfl
  rw [Configure_noUnknown env _ hk, missingDiagnostics_eq]
  have e1 : Field.effective env ⟨basetypes.StringValue.known host,
      basetypes.StringValue.known username, basetypes.StringValue.known password⟩
      Field.host = host := rfl
  have e2 : Field.effective env ⟨basetypes.StringValue.known host,
      basetypes.StringValue.known username, basetypes.StringValue.known password⟩
      Field.username = username := rfl
  have e3 : Field.effective env ⟨basetypes.StringValue.known host,
      basetypes.StringValue.known username, basetypes.StringValue.known password⟩
      Field.password = password := rfl
  simp [e1, e2, e3, hh, hu, hp, clientOf]

/-- Witness of C4 (Scenario A): ci.example.com / bot / secret with an empty
environment. -/
theorem C4_all_set_witness :
    ("ci.example.com" ≠ "" ∧ "bot" ≠ "" ∧ "secret" ≠ "") ∧
    bambooProvider.Configure emptyEnv
        (decoded ⟨basetypes.StringValue.known "ci.example.com",
          basetypes.StringValue.known "bot", basetypes.StringValue.known "secret"⟩)
        freshResponse =
      { Diagnostics := [],
        DataSourceData := some { username := "bot", password := "secret",
                                 url := some "ci.example.com" },
        ResourceData := some { username := "bot", password := "secret",
                               url := some "ci.example.com" } } :=
  ⟨⟨by decide, by decide, by decide⟩,
    C4_all_set emptyEnv "ci.example.com" "bot" "secret" (by decide) (by decide) (by decide)⟩

/-- C5: for every configuration with a null field whose environment variable
(BAMBOO_HOST, BAMBOO_USERNAME, BAMBOO_PASSWORD) is non-empty, the effective
value computed for that field is the value of that variable; accordingly no
missing-value diagnostic is raised for the field, and a published client holds
the value of the variable for it. -/
theorem C5_null_takes_environment (env : os.Environ) (config : bambooProviderModel)
    (f : Field) (hnull : (f.value config).IsNull = true)
    (henv : os.Getenv env f.envVar ≠ "") :
    f.effective env config = os.Getenv env f.envVar ∧
    missingValueDiagnostic f ∉
      (bambooProvider.Configure env (decoded config) freshResponse).Diagnostics ∧
    ∀ c : gobamboo.Client,
      (bambooProvider.Configure env (decoded config) freshResponse).DataSourceData = some c →
      f.ofClient c = some (os.Getenv env f.envVar) := by
  have he := effective_of_null env config f hnull
  refine ⟨he, ?_, ?_⟩
  · cases h : anyUnknown config
    · rw [Configure_noUnknown env config h]
      by_cases hm : missingDiagnostics env config = []
      · simp [hm]
      · simp only [hm, if_false]
        rw [mem_missingDiagnostics]
        rintro ⟨g, hg, hfg⟩
        have := missingValueDiagnostic_injective hfg
        subst this
        exact henv (he ▸ hg)
    · rw [Configure_unknown env config h, mem_unknownDiagnostics]
      rintro ⟨g, _, hfg⟩
      exact unknownValueDiagnostic_ne_missing g f hfg.symm
  · intro c hc
    cases h : anyUnknown config
    · rw [Configure_noUnknown env config h] at hc
      by_cases hm : missingDiagnostics env config = []
      · simp only [hm, if_true, Option.some.injEq] at hc
        rw [← hc, clientOf_ofClient, he]
      · simp [hm] at hc
    · rw [Configure_unknown env config h] at hc
      simp at hc

/-- Witness of C5: all fields null, BAMBOO_USERNAME=bot, field username. -/
theorem C5_null_takes_environment_witness :
    ((Field.username.value ⟨basetypes.StringValue.null, basetypes.StringValue.null,
        basetypes.StringValue.null⟩).IsNull = true ∧
      os.Getenv (envOf [("BAMBOO_USERNAME", "bot")]) Field.username.envVar ≠ "") ∧
    Field.effective (envOf [("BAMBOO_USERNAME", "bot")])
      ⟨basetypes.StringValue.null, basetypes.StringValue.null, basetypes.StringValue.null⟩
      Field.username = os.Getenv (envOf [("BAMBOO_USERNAME", "bot")]) Field.username.envVar :=
  ⟨⟨rfl, by decide⟩,
    (C5_null_takes_environment (envOf [("BAMBOO_USERNAME", "bot")])
      ⟨basetypes.StringValue.null, basetypes.StringValue.null, basetypes.StringValue.null⟩
      Field.username rfl (by decide)).1⟩

/-- C6, as stated, fails: host is null and BAMBOO_HOST is absent, but username
is unknown, so `Configure` stops after phase 1 with the unknown-value diagnostic
of username alone and raises no missing-value diagnostic for host. -/
theorem C6_counterexample :
    (Field.host.value ⟨basetypes.StringValue.null, basetypes.StringValue.unknown,
        basetypes.StringValue.known "secret"⟩).IsNull = true ∧
    emptyEnv Field.host.envVar = none ∧
    (bambooProvider.Configure emptyEnv (decoded ⟨basetypes.StringValue.null,
        basetypes.StringValue.unknown, basetypes.StringValue.known "secret"⟩)
        freshResponse).Diagnostics = [unknownValueDiagnostic Field.username] ∧
    missingValueDiagnostic Field.host ∉
      (bambooProvider.Configure emptyEnv (decoded ⟨basetypes.StringValue.null,
        basetypes.StringValue.unknown, basetypes.StringValue.known "secret"⟩)
        freshResponse).Diagnostics := by
  refine ⟨rfl, rfl, rfl, ?_⟩
  change missingValueDiagnostic Field.host ∉ [unknownValueDiagnostic Field.username]
  intro hmem
  exact unknownValueDiagnostic_ne_missing Field.username Field.host
    (List.mem_singleton.1 hmem).symm

/-- C6, amended: for every configuration with no unknown field, a field that is
null and whose environment variable is absent or empty gets a missing-value
diagnostic from `Configure`, and no handle is published. -/
theorem C6_null_without_environment (env : os.Environ) (config : bambooProviderModel)
    (f : Field) (hknown : anyUnknown config = false)
    (hnull : (f.value config).IsNull = true)
    (henv : env f.envVar = none ∨ env f.envVar = some "") :
    missingValueDiagnostic f ∈
      (bambooProvider.Configure env (decoded config) freshResponse).Diagnostics ∧
    (bambooProvider.Configure env (decoded config) freshResponse).DataSourceData = none ∧
    (bambooProvider.Configure env (decoded config) freshResponse).ResourceData = none := by
  have hget : os.Getenv env f.envVar = "" := by
    rcases henv with he | he <;> simp [os.Getenv, he]
  have heff : f.effective env config = "" := by
    rw [effective_of_null env config f hnull, hget]
  have hmem : missingValueDiagnostic f ∈ missingDiagnostics env config :=
    (mem_missingDiagnostics env config _).2 ⟨f, heff, rfl⟩
  have hne : missingDiagnostics env config ≠ [] := List.ne_nil_of_mem hmem
  rw [Configure_noUnknown env config hknown, if_neg hne]
  exact ⟨hmem, rfl, rfl⟩

/-- Witness of C6 amended: all fields null, empty environment, field host. -/
theorem C6_null_without_environment_witness :
    (anyUnknown ⟨basetypes.StringValue.null, basetypes.StringValue.null,
        basetypes.StringValue.null⟩ = false ∧
      (Field.host.value ⟨basetypes.StringValue.null, basetypes.StringValue.null,
        basetypes.StringValue.null⟩).IsNull = true ∧
      (emptyEnv Field.host.envVar = none ∨ emptyEnv Field.host.envVar = some "")) ∧
    missingValueDiagnostic Field.host ∈
      (bambooProvider.Configure emptyEnv (decoded ⟨basetypes.StringValue.null,
        basetypes.StringValue.null, basetypes.StringValue.null⟩) freshResponse).Diagnostics :=
  ⟨⟨rfl, rfl, Or.inl rfl⟩,
    (C6_null_without_environment emptyEnv ⟨basetypes.StringValue.null,
      basetypes.StringValue.null, basetypes.StringValue.null⟩ Field.host rfl rfl
      (Or.inl rfl)).1⟩

/-- C7: for every configuration with no unknown field and every environment, the
diagnostics of `Configure` are exactly the missing-value diagnostics of the
fields whose effective value (the set value, otherwise the value of the
environment variable) is the empty string, in the order host, username,
password: one for each such field (the three being pairwise different), none for
any other field; and when there is one, no handle is published. -/
theorem C7_missing_exactly (env : os.Environ) (config : bambooProviderModel)
    (hknown : anyUnknown config = false) :
    (bambooProvider.Configure env (decoded config) freshResponse).Diagnostics =
      ([Field.host, Field.username, Field.password].filter
        fun f => decide (f.resolved env config = "")).map missingValueDiagnostic ∧
    Function.Injective missingValueDiagnostic ∧
    (∀ f : Field, missingValueDiagnostic f ∈
        (bambooProvider.Configure env (decoded config) freshResponse).Diagnostics ↔
      f.resolved env config = "") ∧
    ((bambooProvider.Configure env (decoded config) freshResponse).Diagnostics ≠ [] →
      (bambooProvider.Configure env (decoded config) freshResponse).DataSourceData = none ∧
      (bambooProvider.Configure env (decoded config) freshResponse).ResourceData = none) := by
  have hres : ∀ f : Field, f.effective env config = f.resolved env config :=
    effective_of_noUnknown env config hknown
  have hmd : missingDiagnostics env config =
      ([Field.host, Field.username, Field.password].filter
        fun f => decide (f.resolved env config = "")).map missingValueDiagnostic := by
    unfold missingDiagnostics
    simp only [hres]
  have hd : (bambooProvider.Configure env (decoded config) freshResponse).Diagnostics =
      missingDiagnostics env config := by
    rw [Configure_noUnknown env config hknown]
    by_cases hm : missingDiagnostics env config = []
    · simp [hm]
    · simp [hm]
  refine ⟨hd.trans hmd, missingValueDiagnostic_injective, ?_, ?_⟩
  · intro f
    rw [hd, mem_missingDiagnostics, ← hres f]
    constructor
    · rintro ⟨g, hg, hfg⟩
      rw [missingValueDiagnostic_injective hfg]
      exact hg
    · intro hf
      exact ⟨f, hf, rfl⟩
  · intro hne
    rw [hd] at hne
    rw [Configure_noUnknown env config hknown]
    simp [hne]

/-- Witness of C7 (Scenario B): all fields null, BAMBOO_HOST empty,
BAMBOO_USERNAME=bot, BAMBOO_PASSWORD=secret: exactly one diagnostic, the
missing-value diagnostic of host, and no handle. -/
theorem C7_missing_exactly_witness :
    anyUnknown ⟨basetypes.StringValue.null, basetypes.StringValue.null,
        basetypes.StringValue.null⟩ = false ∧
    (bambooProvider.Configure
        (envOf [("BAMBOO_HOST", ""), ("BAMBOO_USERNAME", "bot"), ("BAMBOO_PASSWORD", "secret")])
        (decoded ⟨basetypes.StringValue.null, basetypes.StringValue.null,
          basetypes.StringValue.null⟩) freshResponse).Diagnostics =
      [missingValueDiagnostic Field.host] ∧
    (bambooProvider.Configure
        (envOf [("BAMBOO_HOST", ""), ("BAMBOO_USERNAME", "bot"), ("BAMBOO_PASSWORD", "secret")])
        (decoded ⟨basetypes.StringValue.null, basetypes.StringValue.null,
          basetypes.StringValue.null⟩) freshResponse).DataSourceData = none :=
  ⟨rfl,
    (C7_missing_exactly
      (envOf [("BAMBOO_HOST", ""), ("BAMBOO_USERNAME", "bot"), ("BAMBOO_PASSWORD", "secret")])
      ⟨basetypes.StringValue.null, basetypes.StringValue.null, basetypes.StringValue.null⟩
      rfl).1.trans rfl,
    rfl⟩

/-- C8: phase 1 short-circuits phase 2: for every configuration with at least
one unknown field and every environment, the result of `Configure` holds no
missing-value diagnostic of any field, and every diagnostic in it is the
unknown-value diagnostic of an unknown field (which is never a missing-value
diagnostic). -/
theorem C8_unknown_short_circuits (env : os.Environ) (config : bambooProviderModel)
    (h : anyUnknown config = true) :
    (∀ f : Field, missingValueDiagnostic f ∉
      (bambooProvider.Configure env (decoded config) freshResponse).Diagnostics) ∧
    (∀ d ∈ (bambooProvider.Configure env (decoded config) freshResponse).Diagnostics,
      ∃ f : Field, (f.value config).IsUnknown = true ∧ d = unknownValueDiagnostic f) ∧
    (∀ f g : Field, unknownValueDiagnostic f ≠ missingValueDiagnostic g) := by
  rw [Configure_unknown env config h]
  refine ⟨?_, ?_, unknownValueDiagnostic_ne_missing⟩
  · intro f hmem
    obtain ⟨g, _, hg⟩ := (mem_unknownDiagnostics config _).1 hmem
    exact unknownValueDiagnostic_ne_missing g f hg.symm
  · intro d hd
    exact (mem_unknownDiagnostics config d).1 hd

/-- Witness of C8 (Scenario C): host unknown, username and password set: no
missing-value diagnostic, and the diagnostics are exactly the unknown-value
diagnostic of host. -/
theorem C8_unknown_short_circuits_witness :
    anyUnknown ⟨basetypes.StringValue.unknown, basetypes.StringValue.known "bot",
        basetypes.StringValue.known "secret"⟩ = true ∧
    (∀ f : Field, missingValueDiagnostic f ∉
      (bambooProvider.Configure emptyEnv (decoded ⟨basetypes.StringValue.unknown,
        basetypes.StringValue.known "bot", basetypes.StringValue.known "secret"⟩)
        freshResponse).Diagnostics) ∧
    (bambooProvider.Configure emptyEnv (decoded ⟨basetypes.StringValue.unknown,
        basetypes.StringValue.known "bot", basetypes.StringValue.known "secret"⟩)
        freshResponse).Diagnostics = [unknownValueDiagnostic Field.host] :=
  ⟨rfl,
    (C8_unknown_short_circuits emptyEnv ⟨basetypes.StringValue.unknown,
      basetypes.StringValue.known "bot", basetypes.StringValue.known "secret"⟩ rfl).1,
    rfl⟩

/-- C9: an environment variable is consulted only when its field is null: for
every configuration and every two environments that differ only in variables of
fields that are not null in the configuration, `Configure` returns the same
response (the same handles, the same diagnostics). -/
theorem C9_environment_only_for_null (config : bambooProviderModel)
    (env1 env2 : os.Environ)
    (h : ∀ key : String, env1 key ≠ env2 key →
      ∃ f : Field, key = f.envVar ∧ (f.value config).IsNull = false) :
    bambooProvider.Configure env1 (decoded config) freshResponse =
      bambooProvider.Configure env2 (decoded config) freshResponse := by
  apply Configure_congr_effective
  intro f
  change f.effective env1 config = f.effective env2 config
  cases hn : (f.value config).IsNull
  · rw [effective_of_not_null env1 config f hn, effective_of_not_null env2 config f hn]
  · rw [effective_of_null env1 config f hn, effective_of_null env2 config f hn]
    by_cases he : env1 f.envVar = env2 f.envVar
    · simp [os.Getenv, he]
    · obtain ⟨g, hg, hgn⟩ := h f.envVar he
      rw [envVar_injective hg, hgn] at hn
      exact absurd hn (by decide)

/-- Witness of C9: host and username set, password null; the two environments
differ in BAMBOO_HOST only. -/
theorem C9_environment_only_for_null_witness :
    (∀ key : String, envOf [("BAMBOO_HOST", "other.example.com")] key ≠ emptyEnv key →
      ∃ f : Field, key = f.envVar ∧
        (f.value ⟨basetypes.StringValue.known "ci.example.com",
          basetypes.StringValue.known "bot", basetypes.StringValue.null⟩).IsNull = false) ∧
    bambooProvider.Configure (envOf [("BAMBOO_HOST", "other.example.com")])
        (decoded ⟨basetypes.StringValue.known "ci.example.com",
          basetypes.StringValue.known "bot", basetypes.StringValue.null⟩) freshResponse =
      bambooProvider.Configure emptyEnv
        (decoded ⟨basetypes.StringValue.known "ci.example.com",
          basetypes.StringValue.known "bot", basetypes.StringValue.null⟩) freshResponse :=
  have hyp : ∀ key : String,
      envOf [("BAMBOO_HOST", "other.example.com")] key ≠ emptyEnv key →
      ∃ f : Field, key = f.envVar ∧
        (f.value ⟨basetypes.StringValue.known "ci.example.com",
          basetypes.StringValue.known "bot", basetypes.StringValue.null⟩).IsNull = false := by
    intro key hk
    refine ⟨Field.host, ?_, rfl⟩
    by_contra hne
    apply hk
    have hne2 : ¬ ("BAMBOO_HOST" = key) := fun e => hne e.symm
    simp [envOf, emptyEnv, List.find?, hne2]
  ⟨hyp, C9_environment_only_for_null _ _ _ hyp⟩

/-- C10 on the code: the schema declared by `Schema` has three attributes, all
strings, of which password and only password is sensitive, but their names are
server, username and password, while the model that `Configure` decodes into
reads host, username and password: host is not an attribute of the schema and
server is not a field of the model. -/
theorem C10_schema_declares_server :
    (bambooProvider.Schema.Attributes.map Prod.fst = ["server", "username", "password"]) ∧
    bambooProviderModel.tfsdkTags = ["host", "username", "password"] ∧
    "host" ∉ bambooProvider.Schema.Attributes.map Prod.fst ∧
    "server" ∉ bambooProviderModel.tfsdkTags ∧
    (∀ a ∈ bambooProvider.Schema.Attributes, a.2.isString = true) ∧
    (∀ a ∈ bambooProvider.Schema.Attributes, a.2.Sensitive = true ↔ a.1 = "password") := by
  refine ⟨rfl, rfl, ?_, ?_, ?_, ?_⟩
  · simp [bambooProvider.Schema]
  · simp [bambooProviderModel.tfsdkTags]
  · intro a ha
    simp only [bambooProvider.Schema, List.mem_cons, List.mem_singleton, List.not_mem_nil,
      or_false] at ha
    rcases ha with rfl | rfl | rfl <;> rfl
  · intro a ha
    simp only [bambooProvider.Schema, List.mem_cons, List.mem_singleton, List.not_mem_nil,
      or_false] at ha
    rcases ha with rfl | rfl | rfl <;> simp [schema.Attribute.Sensitive]

/-- C11: `Configure` is deterministic: its response is a function of the
request, the entry response and the values of the three variables BAMBOO_HOST,
BAMBOO_USERNAME and BAMBOO_PASSWORD alone.  Two invocations on the same request
and entry response, in environments that give these three variables the same
values (in particular in the same environment), return identical responses: the
same handles, the same diagnostics in the same order. -/
theorem C11_deterministic (env1 env2 : os.Environ) (req : ConfigureRequest)
    (resp : ConfigureResponse)
    (h : ∀ f : Field, os.Getenv env1 f.envVar = os.Getenv env2 f.envVar) :
    bambooProvider.Configure env1 req resp = bambooProvider.Configure env2 req resp :=
  Configure_congr_effective env1 env2 req resp
    (effective_congr_Getenv env1 env2 req.Config.model h)

/-- Witness of C11: all fields null; both environments set BAMBOO_HOST to
ci.example.com and leave the other two variables absent, the first also sets an
unrelated variable. -/
theorem C11_deterministic_witness :
    (∀ f : Field,
      os.Getenv (envOf [("PATH", "/usr/bin"), ("BAMBOO_HOST", "ci.example.com")]) f.envVar =
        os.Getenv (envOf [("BAMBOO_HOST", "ci.example.com")]) f.envVar) ∧
    bambooProvider.Configure (envOf [("PATH", "/usr/bin"), ("BAMBOO_HOST", "ci.example.com")])
        (decoded ⟨basetypes.StringValue.null, basetypes.StringValue.null,
          basetypes.StringValue.null⟩) freshResponse =
      bambooProvider.Configure (envOf [("BAMBOO_HOST", "ci.example.com")])
        (decoded ⟨basetypes.StringValue.null, basetypes.StringValue.null,
          basetypes.StringValue.null⟩) freshResponse :=
  have hyp : ∀ f : Field,
      os.Getenv (envOf [("PATH", "/usr/bin"), ("BAMBOO_HOST", "ci.example.com")]) f.envVar =
        os.Getenv (envOf [("BAMBOO_HOST", "ci.example.com")]) f.envVar := by
    intro f
    cases f <;> decide
  ⟨hyp, C11_deterministic _ _ _ _ hyp⟩

/-- C12: both registration hooks return empty lists: `DataSources` and
`Resources` each return a list of length zero. -/
theorem C12_no_registrations :
    bambooProvider.DataSources = [] ∧ bambooProvider.DataSources.length = 0 ∧
    bambooProvider.Resources = [] ∧ bambooProvider.Resources.length = 0 :=
  ⟨rfl, rfl, rfl, rfl⟩

/-- C13: a field set to the empty string is not replaced by its environment
default: for every configuration with no unknown field in which a field is set
to the empty string, and for every environment (also one whose variable for the
field is non-empty), the effective value of the field is empty, `Configure`
raises the missing-value diagnostic of that field, and no handle is published. -/
theorem C13_empty_set_not_defaulted (env : os.Environ) (config : bambooProviderModel)
    (f : Field) (hknown : anyUnknown config = false)
    (hset : f.value config = basetypes.StringValue.known "") :
    f.effective env config = "" ∧
    missingValueDiagnostic f ∈
      (bambooProvider.Configure env (decoded config) freshResponse).Diagnostics ∧
    (bambooProvider.Configure env (decoded config) freshResponse).DataSourceData = none ∧
    (bambooProvider.Configure env (decoded config) freshResponse).ResourceData = none := by
  have heff : f.effective env config = "" := effective_of_known env config f "" hset
  have hmem : missingValueDiagnostic f ∈ missingDiagnostics env config :=
    (mem_missingDiagnostics env config _).2 ⟨f, heff, rfl⟩
  have hne : missingDiagnostics env config ≠ [] := List.ne_nil_of_mem hmem
  rw [Configure_noUnknown env config hknown, if_neg hne]
  exact ⟨heff, hmem, rfl, rfl⟩

/-- Witness of C13: host set to the empty string, username and password set,
BAMBOO_HOST=ci.example.com. -/
theorem C13_empty_set_not_defaulted_witness :
    (anyUnknown ⟨basetypes.StringValue.known "", basetypes.StringValue.known "bot",
        basetypes.StringValue.known "secret"⟩ = false ∧
      Field.host.value ⟨basetypes.StringValue.known "", basetypes.StringValue.known "bot",
        basetypes.StringValue.known "secret"⟩ = basetypes.StringValue.known "") ∧
    os.Getenv (envOf [("BAMBOO_HOST", "ci.example.com")]) Field.host.envVar ≠ "" ∧
    missingValueDiagnostic Field.host ∈
      (bambooProvider.Configure (envOf [("BAMBOO_HOST", "ci.example.com")])
        (decoded ⟨basetypes.StringValue.known "", basetypes.StringValue.known "bot",
          basetypes.StringValue.known "secret"⟩) freshResponse).Diagnostics :=
  ⟨⟨rfl, rfl⟩, by decide,
    (C13_empty_set_not_defaulted (envOf [("BAMBOO_HOST", "ci.example.com")])
      ⟨basetypes.StringValue.known "", basetypes.StringValue.known "bot",
        basetypes.StringValue.known "secret"⟩ Field.host rfl rfl).2.1⟩

/-- C14: every diagnostic `Configure` emits names the field it is about: a
diagnostic of the result that was not in the response on entry and did not come
from the decoding is raised for a field f (unknown-value: f is unknown;
missing-value: the effective value of f is empty), has the attribute path
root(f), the title "Unknown Bamboo API F" or "Missing Bamboo API F" for that
field, and a message that mentions the environment variable of f and of no
other field. -/
theorem C14_diagnostic_names_field (env : os.Environ) (req : ConfigureRequest)
    (resp : ConfigureResponse) (d : diag.Diagnostic)
    (hd : d ∈ (bambooProvider.Configure env req resp).Diagnostics) :
    d ∈ resp.Diagnostics ∨ d ∈ req.Config.diags ∨
    ∃ f : Field,
      d.path = some (path.Root f.attr) ∧
      ((d.summary = "Unknown Bamboo API " ++ f.title ∧
          (f.value req.Config.model).IsUnknown = true) ∨
        (d.summary = "Missing Bamboo API " ++ f.title ∧
          f.effective env req.Config.model = "")) ∧
      mentions d.detail f.envVar = true ∧
      ∀ g : Field, mentions d.detail g.envVar = true → g = f := by
  have hentry : d ∈ diag.Append resp.Diagnostics req.Config.diags →
      d ∈ resp.Diagnostics ∨ d ∈ req.Config.diags ∨
      ∃ f : Field,
        d.path = some (path.Root f.attr) ∧
        ((d.summary = "Unknown Bamboo API " ++ f.title ∧
            (f.value req.Config.model).IsUnknown = true) ∨
          (d.summary = "Missing Bamboo API " ++ f.title ∧
            f.effective env req.Config.model = "")) ∧
        mentions d.detail f.envVar = true ∧
        ∀ g : Field, mentions d.detail g.envVar = true → g = f := by
    intro h
    rcases (diag.mem_Append _ _ d).1 h with h | h
    · exact Or.inl h
    · exact Or.inr (Or.inl h)
  rw [Configure_cases] at hd
  split_ifs at hd with h0 hu hm
  · exact hentry hd
  · rcases List.mem_append.1 hd with h | h
    · exact hentry h
    · obtain ⟨f, hf, rfl⟩ := (mem_unknownDiagnostics _ d).1 h
      refine Or.inr (Or.inr ⟨f, unknownValueDiagnostic_path f,
        Or.inl ⟨unknownValueDiagnostic_summary f, hf⟩, ?_, ?_⟩)
      · rw [unknownValueDiagnostic_mentions]
        simp
      · intro g hg
        rw [unknownValueDiagnostic_mentions] at hg
        simpa using hg
  · exact hentry hd
  · rcases List.mem_append.1 hd with h | h
    · exact hentry h
    · obtain ⟨f, hf, rfl⟩ := (mem_missingDiagnostics env _ d).1 h
      refine Or.inr (Or.inr ⟨f, missingValueDiagnostic_path f,
        Or.inr ⟨missingValueDiagnostic_summary f, hf⟩, ?_, ?_⟩)
      · rw [missingValueDiagnostic_mentions]
        simp
      · intro g hg
        rw [missingValueDiagnostic_mentions] at hg
        simpa using hg

/-- Witness of C14: host unknown, username and password set; the diagnostic is
the unknown-value diagnostic of host. -/
theorem C14_diagnostic_names_field_witness :
    unknownValueDiagnostic Field.host ∈
      (bambooProvider.Configure emptyEnv (decoded ⟨basetypes.StringValue.unknown,
        basetypes.StringValue.known "bot", basetypes.StringValue.known "secret"⟩)
        freshResponse).Diagnostics ∧
    (unknownValueDiagnostic Field.host ∈ freshResponse.Diagnostics ∨
      unknownValueDiagnostic Field.host ∈
        (decoded ⟨basetypes.StringValue.unknown, basetypes.StringValue.known "bot",
          basetypes.StringValue.known "secret"⟩).Config.diags ∨
      ∃ f : Field,
        (unknownValueDiagnostic Field.host).path = some (path.Root f.attr) ∧
        (((unknownValueDiagnostic Field.host).summary = "Unknown Bamboo API " ++ f.title ∧
            (f.value (decoded ⟨basetypes.StringValue.unknown,
              basetypes.StringValue.known "bot",
              basetypes.StringValue.known "secret"⟩).Config.model).IsUnknown = true) ∨
          ((unknownValueDiagnostic Field.host).summary = "Missing Bamboo API " ++ f.title ∧
            f.effective emptyEnv (decoded ⟨basetypes.StringValue.unknown,
              basetypes.StringValue.known "bot",
              basetypes.StringValue.known "secret"⟩).Config.model = "")) ∧
        mentions (unknownValueDiagnostic Field.host).detail f.envVar = true ∧
        ∀ g : Field,
          mentions (unknownValueDiagnostic Field.host).detail g.envVar = true → g = f) :=
  have hmem : unknownValueDiagnostic Field.host ∈
      (bambooProvider.Configure emptyEnv (decoded ⟨basetypes.StringValue.unknown,
        basetypes.StringValue.known "bot", basetypes.StringValue.known "secret"⟩)
        freshResponse).Diagnostics := by
    change unknownValueDiagnostic Field.host ∈ [unknownValueDiagnostic Field.host]
    exact List.mem_singleton.2 rfl
  ⟨hmem, C14_diagnostic_names_field _ _ _ _ hmem⟩

/-- C15: the diagnostics `Configure` adds come in the fixed field order host,
username, password: for every environment, request and entry response, the
result holds the entry diagnostics with the decoding diagnostics appended,
followed by the added diagnostics, whose sequence of attribute paths is a
subsequence of [host, username, password] without repetition; at most three
diagnostics are added. -/
theorem C15_fixed_field_order (env : os.Environ) (req : ConfigureRequest)
    (resp : ConfigureResponse) :
    ∃ added : diag.Diagnostics,
      (bambooProvider.Configure env req resp).Diagnostics =
        diag.Append resp.Diagnostics req.Config.diags ++ added ∧
      List.Sublist (added.map fun d => d.path)
        [some (path.Root "host"), some (path.Root "username"), some (path.Root "password")] ∧
      (added.map fun d => d.path).Nodup ∧
      added.length ≤ 3 := by
  have hlen : ∀ l : diag.Diagnostics,
      List.Sublist (l.map fun d => d.path)
        [some (path.Root "host"), some (path.Root "username"), some (path.Root "password")] →
      l.length ≤ 3 := by
    intro l hl
    have := hl.length_le
    simpa using this
  rw [Configure_cases]
  split_ifs with h0 hu hm
  · exact ⟨[], by simp, by simp, by simp, by simp⟩
  · exact ⟨unknownDiagnostics req.Config.model, rfl, unknownDiagnostics_paths _,
      (unknownDiagnostics_paths _).nodup fieldPaths_nodup, hlen _ (unknownDiagnostics_paths _)⟩
  · exact ⟨[], by simp, by simp, by simp, by simp⟩
  · exact ⟨missingDiagnostics env req.Config.model, rfl, missingDiagnostics_paths _ _,
      (missingDiagnostics_paths _ _).nodup fieldPaths_nodup,
      hlen _ (missingDiagnostics_paths _ _)⟩

/-- C16: if the decoding of the configuration yields an error diagnostic, or
the response holds an error diagnostic on entry, `Configure` returns at once,
whatever the field values and the environment: the response is the entry
response with the decoding diagnostics appended, so every diagnostic of the
result was there on entry or comes from the decoding (none is an unknown-value
or missing-value diagnostic of its own), and `DataSourceData` and
`ResourceData` are as on entry, unset. -/
theorem C16_error_on_entry_returns (env : os.Environ) (req : ConfigureRequest)
    (resp : ConfigureResponse)
    (h : diag.HasError req.Config.diags = true ∨ diag.HasError resp.Diagnostics = true) :
    bambooProvider.Configure env req resp =
      { resp with Diagnostics := diag.Append resp.Diagnostics req.Config.diags } ∧
    (∀ d ∈ (bambooProvider.Configure env req resp).Diagnostics,
      d ∈ resp.Diagnostics ∨ d ∈ req.Config.diags) ∧
    (bambooProvider.Configure env req resp).DataSourceData = resp.DataSourceData ∧
    (bambooProvider.Configure env req resp).ResourceData = resp.ResourceData := by
  have h0 : diag.HasError (diag.Append resp.Diagnostics req.Config.diags) = true := by
    rw [diag.HasError_Append]
    rcases h with h | h <;> simp [h]
  have he : bambooProvider.Configure env req resp =
      { resp with Diagnostics := diag.Append resp.Diagnostics req.Config.diags } := by
    rw [Configure_cases, if_pos h0]
  refine ⟨he, ?_, ?_, ?_⟩
  · intro d hd
    rw [he] at hd
    exact (diag.mem_Append _ _ d).1 hd
  · rw [he]
  · rw [he]

/-- Witness of C16: the decoding reports an error while all three fields are
unknown and the environment is empty; the response is the fresh response with
that one error, both handles nil. -/
theorem C16_error_on_entry_returns_witness :
    (diag.HasError [decodeError] = true ∨ diag.HasError freshResponse.Diagnostics = true) ∧
    bambooProvider.Configure emptyEnv
        ⟨⟨⟨basetypes.StringValue.unknown, basetypes.StringValue.unknown,
          basetypes.StringValue.unknown⟩, [decodeError]⟩⟩ freshResponse =
      { Diagnostics := [decodeError], DataSourceData := none, ResourceData := none } :=
  ⟨Or.inl rfl,
    (C16_error_on_entry_returns emptyEnv
      ⟨⟨⟨basetypes.StringValue.unknown, basetypes.StringValue.unknown,
        basetypes.StringValue.unknown⟩, [decodeError]⟩⟩ freshResponse (Or.inl rfl)).1⟩

/-- C17: for every environment, request and entry response, `Configure` ends in
one of two ways.  It succeeds, with no error diagnostic in the result, and then
the data-source handle and the resource handle are one and the same client,
built by `NewSimpleClient` from the effective username and password with
`SetURL` applied to the effective host, the effective value of a field being
its set value, otherwise the value of its environment variable.  Or it fails,
with an error diagnostic in the result, and then both handles are as on entry,
unset. -/
theorem C17_handles_same_client (env : os.Environ) (req : ConfigureRequest)
    (resp : ConfigureResponse) :
    (diag.HasError (bambooProvider.Configure env req resp).Diagnostics = false ∧
      (bambooProvider.Configure env req resp).DataSourceData =
        some ((gobamboo.NewSimpleClient (Field.resolved env req.Config.model Field.username)
          (Field.resolved env req.Config.model Field.password)).SetURL
            (Field.resolved env req.Config.model Field.host)) ∧
      (bambooProvider.Configure env req resp).ResourceData =
        (bambooProvider.Configure env req resp).DataSourceData) ∨
    (diag.HasError (bambooProvider.Configure env req resp).Diagnostics = true ∧
      (bambooProvider.Configure env req resp).DataSourceData = resp.DataSourceData ∧
      (bambooProvider.Configure env req resp).ResourceData = resp.ResourceData) := by
  rw [Configure_cases]
  split_ifs with h0 hu hm
  · exact Or.inr ⟨h0, rfl, rfl⟩
  · refine Or.inr ⟨?_, rfl, rfl⟩
    simp only [diag.HasError_append, HasError_unknownDiagnostics, hu, Bool.or_true]
  · have h0f : diag.HasError (diag.Append resp.Diagnostics req.Config.diags) = false := by
      simpa using h0
    have huf : anyUnknown req.Config.model = false := by simpa using hu
    have hres : ∀ f : Field,
        f.effective env req.Config.model = f.resolved env req.Config.model :=
      effective_of_noUnknown env req.Config.model huf
    refine Or.inl ⟨h0f, ?_, rfl⟩
    simp only [clientOf, hres]
    rfl
  · refine Or.inr ⟨?_, rfl, rfl⟩
    simp only [diag.HasError_append, HasError_missingDiagnostics, hm, decide_False,
      Bool.not_false, Bool.or_true]

end bamboo
